import Mathlib

set_option linter.unusedSectionVars false

/-!
Shallow embedding of the `lunarphase-js` calculation core (`src/Moon.ts`).

Julian day numbers and ages are modelled as elements of a linear ordered
field with a floor function (instantiated at `ℚ` for executable checks and
at `ℝ` for the trigonometric distance formula).  The JavaScript `Date`
argument of every public function enters the computation only through
`JulianDay.fromDate`, so each function is embedded as a function of the
Julian day number of the date.  Modules of the repository that are imported by
`Moon.ts` but whose sources are not available (`constants/Time`,
`constants/Hemisphere`, `constants/LunarPhase`, `constants/LunarEmoji`,
`MoonOptions`, `utils/MathUtil`) are modelled from the specification and
marked as such in their doc comments.
-/

namespace Lunarphase

/-- Modelled from the spec: `Hemisphere` is the closed enumeration
{NORTHERN, SOUTHERN} (`constants/Hemisphere`, source file missing). -/
inductive Hemisphere where
  | NORTHERN
  | SOUTHERN
deriving DecidableEq

/-- Modelled from the spec: `LunarPhase` is the closed enumeration of the
eight phases (`constants/LunarPhase`, source file missing). -/
inductive LunarPhase where
  | NEW
  | WAXING_CRESCENT
  | FIRST_QUARTER
  | WAXING_GIBBOUS
  | FULL
  | WANING_GIBBOUS
  | LAST_QUARTER
  | WANING_CRESCENT
deriving DecidableEq

variable {K : Type} [LinearOrderedField K] [FloorRing K]

/-- Modelled from the spec: SYNODIC_MONTH = 29.53058770576 days
(`constants/Time`, source file missing; the value is given in spec §4.3). -/
def SYNODIC_MONTH : K := 29.53058770576

/-- Modelled from the spec: ANOMALISTIC_MONTH, the mean perigee-to-perigee
interval (`constants/Time`, source file missing; the spec gives only the
description, so the standard mean value of 27.554549886 days is used — no
claim depends on the exact value). -/
def ANOMALISTIC_MONTH : K := 27.554549886

/-- Modelled from the spec: LUNATION_BASE_JULIAN_DAY, the Julian day of
Brown Lunation Number 1, the first new moon of 1923 at approximately
02:41 UTC on January 17, 1923 (`constants/Time`, source file missing). -/
def LUNATION_BASE_JULIAN_DAY : K := 2423436.6115277777

/-- Modelled from the spec: `normalize(x) = x - floor(x)`
(`utils/MathUtil`, source file missing; spec §4.2). -/
def normalize (x : K) : K := x - ⌊x⌋

/-- ECMAScript `Math.round`: nearest integer, ties rounding toward
positive infinity, i.e. `⌊x + 1/2⌋`. -/
def mathRound (x : K) : ℤ := ⌊x + 1 / 2⌋

/-- `lunarAgePercent` from `src/Moon.ts`:
`normalize((julianDay - 2451550.1) / SYNODIC_MONTH)`. -/
def lunarAgePercent (julianDay : K) : K :=
  normalize ((julianDay - 2451550.1) / SYNODIC_MONTH)

/-- `lunarAge` from `src/Moon.ts`: `lunarAgePercent(date) * SYNODIC_MONTH`. -/
def lunarAge (julianDay : K) : K :=
  lunarAgePercent julianDay * SYNODIC_MONTH

/-- `lunationNumber` from `src/Moon.ts`:
`Math.round((julianDay - LUNATION_BASE_JULIAN_DAY) / SYNODIC_MONTH) + 1`. -/
def lunationNumber (julianDay : K) : ℤ :=
  mathRound ((julianDay - LUNATION_BASE_JULIAN_DAY) / SYNODIC_MONTH) + 1

/-- Modelled from the spec: `MoonOptions` has the single recognized field
`hemisphere : Hemisphere` (`MoonOptions`, source file missing). -/
structure MoonOptions where
  hemisphere : Hemisphere
deriving DecidableEq

/-- Modelled from the spec: `MoonOptionsFactory()` produces the default
record `{ hemisphere: NORTHERN }` (`MoonOptions`, source file missing). -/
def MoonOptionsFactory : MoonOptions :=
  { hemisphere := Hemisphere.NORTHERN }

/-- A `Partial<MoonOptions>`: the recognized key may be absent. -/
structure PartialMoonOptions where
  hemisphere : Option Hemisphere
deriving DecidableEq

/-- Modelled from the spec: resolution of the hemisphere option by merging
the partial options of the caller over `MoonOptionsFactory()`
(`{ ...MoonOptionsFactory(), ...options }` in `src/Moon.ts`; the optional
parameter itself may be absent). -/
def resolveHemisphere (options : Option PartialMoonOptions) : Hemisphere :=
  match options with
  | none => MoonOptionsFactory.hemisphere
  | some o => o.hemisphere.getD MoonOptionsFactory.hemisphere

/-- `lunarPhase` from `src/Moon.ts`: the ascending threshold chain on
`lunarAge(date)`; the `options` parameter is accepted and unused, exactly
as in the source. -/
def lunarPhase (julianDay : K) (_options : Option PartialMoonOptions) : LunarPhase :=
  if lunarAge julianDay < 1.84566173161 then LunarPhase.NEW
  else if lunarAge julianDay < 5.53698519483 then LunarPhase.WAXING_CRESCENT
  else if lunarAge julianDay < 9.22830865805 then LunarPhase.FIRST_QUARTER
  else if lunarAge julianDay < 12.91963212127 then LunarPhase.WAXING_GIBBOUS
  else if lunarAge julianDay < 16.61095558449 then LunarPhase.FULL
  else if lunarAge julianDay < 20.30227904771 then LunarPhase.WANING_GIBBOUS
  else if lunarAge julianDay < 23.99360251093 then LunarPhase.LAST_QUARTER
  else if lunarAge julianDay < 27.68492597415 then LunarPhase.WANING_CRESCENT
  else LunarPhase.NEW

/-- `isWaxing` from `src/Moon.ts`: `lunarAge(date) <= 14.765`. -/
def isWaxing (julianDay : K) : Bool :=
  decide (lunarAge julianDay ≤ 14.765)

/-- `isWaning` from `src/Moon.ts`: `lunarAge(date) > 14.765`. -/
def isWaning (julianDay : K) : Bool :=
  decide (14.765 < lunarAge julianDay)

/-- Modelled from the spec: the Northern-hemisphere emoji table
(`constants/LunarEmoji`, source file missing; the spec describes two fixed
tables with mirrored crescent/gibbous glyphs and identical glyphs for the
symmetric phases NEW and FULL). -/
def NorthernHemisphereLunarEmoji : LunarPhase → String
  | LunarPhase.NEW => "🌑"
  | LunarPhase.WAXING_CRESCENT => "🌒"
  | LunarPhase.FIRST_QUARTER => "🌓"
  | LunarPhase.WAXING_GIBBOUS => "🌔"
  | LunarPhase.FULL => "🌕"
  | LunarPhase.WANING_GIBBOUS => "🌖"
  | LunarPhase.LAST_QUARTER => "🌗"
  | LunarPhase.WANING_CRESCENT => "🌘"

/-- Modelled from the spec: the Southern-hemisphere emoji table, the mirror
of the Northern one (`constants/LunarEmoji`, source file missing). -/
def SouthernHemisphereLunarEmoji : LunarPhase → String
  | LunarPhase.NEW => "🌑"
  | LunarPhase.WAXING_CRESCENT => "🌘"
  | LunarPhase.FIRST_QUARTER => "🌗"
  | LunarPhase.WAXING_GIBBOUS => "🌖"
  | LunarPhase.FULL => "🌕"
  | LunarPhase.WANING_GIBBOUS => "🌔"
  | LunarPhase.LAST_QUARTER => "🌓"
  | LunarPhase.WANING_CRESCENT => "🌒"

/-- The runtime argument of `emojiForLunarPhase`: either one of the eight
`LunarPhase` enumeration values, or (through misuse of the untyped runtime)
some other value, carried as a string. -/
inductive RawPhase where
  | valid : LunarPhase → RawPhase
  | invalid : String → RawPhase
deriving DecidableEq

/-- `emojiForLunarPhase` from `src/Moon.ts`: resolves the hemisphere from
the options, selects the Northern table when the hemisphere is SOUTHERN and
the Southern table otherwise, then switches on the phase; the `default`
branch throws `Invalid lunar phase of ... specified`. -/
def emojiForLunarPhase (phase : RawPhase) (options : Option PartialMoonOptions) :
    Except String String :=
  let hemisphere := resolveHemisphere options
  let emoji := if hemisphere = Hemisphere.SOUTHERN then NorthernHemisphereLunarEmoji
               else SouthernHemisphereLunarEmoji
  match phase with
  | RawPhase.valid LunarPhase.NEW => Except.ok (emoji LunarPhase.NEW)
  | RawPhase.valid LunarPhase.WANING_CRESCENT => Except.ok (emoji LunarPhase.WANING_CRESCENT)
  | RawPhase.valid LunarPhase.LAST_QUARTER => Except.ok (emoji LunarPhase.LAST_QUARTER)
  | RawPhase.valid LunarPhase.WANING_GIBBOUS => Except.ok (emoji LunarPhase.WANING_GIBBOUS)
  | RawPhase.valid LunarPhase.FULL => Except.ok (emoji LunarPhase.FULL)
  | RawPhase.valid LunarPhase.WAXING_GIBBOUS => Except.ok (emoji LunarPhase.WAXING_GIBBOUS)
  | RawPhase.valid LunarPhase.FIRST_QUARTER => Except.ok (emoji LunarPhase.FIRST_QUARTER)
  | RawPhase.valid LunarPhase.WAXING_CRESCENT => Except.ok (emoji LunarPhase.WAXING_CRESCENT)
  | RawPhase.invalid s => Except.error ("Invalid lunar phase of " ++ s ++ " specified")

/-- `lunarPhaseEmoji` from `src/Moon.ts`: classifies the date (passing no
options to the classification) and looks the phase up with the options of the caller. -/
def lunarPhaseEmoji (julianDay : K) (options : Option PartialMoonOptions) :
    Except String String :=
  emojiForLunarPhase (RawPhase.valid (lunarPhase julianDay none)) options

/-- `lunarDistance` from `src/Moon.ts`, over the reals (the only function
using transcendental operations):
`60.4 - 3.3 cos(percent) - 0.6 cos(2 radians - percent) - 0.5 cos(2 radians)`
with `radians = lunarAgePercent(date) * 2π` and
`percent = 2π * normalize((julianDay - 2451562.2) / ANOMALISTIC_MONTH)`. -/
noncomputable def lunarDistance (julianDay : ℝ) : ℝ :=
  let radians := lunarAgePercent julianDay * 2 * Real.pi
  let percent := 2 * Real.pi * normalize ((julianDay - 2451562.2) / ANOMALISTIC_MONTH)
  60.4 - 3.3 * Real.cos percent - 0.6 * Real.cos (2 * radians - percent)
    - 0.5 * Real.cos (2 * radians)

/-- The table belonging to a given hemisphere, for stating which table the
code actually consults. -/
def emojiTable : Hemisphere → LunarPhase → String
  | Hemisphere.NORTHERN => NorthernHemisphereLunarEmoji
  | Hemisphere.SOUTHERN => SouthernHemisphereLunarEmoji

/-- The opposite hemisphere. -/
def oppositeHemisphere : Hemisphere → Hemisphere
  | Hemisphere.NORTHERN => Hemisphere.SOUTHERN
  | Hemisphere.SOUTHERN => Hemisphere.NORTHERN

/-- Rounding half away from zero, following the spec sentence
"ties at half-cycle boundaries resolved by standard
round-half-away-from-zero". -/
def roundHalfAwayFromZero (x : K) : ℤ :=
  if 0 ≤ x then ⌊x + 1 / 2⌋ else -⌊-x + 1 / 2⌋

/-- Rounding half to even, following the alternative reading of the spec
"or round-half-to-even per host rounding". -/
def roundHalfToEven (x : K) : ℤ :=
  if Int.fract x < 1 / 2 then ⌊x⌋
  else if 1 / 2 < Int.fract x then ⌊x⌋ + 1
  else if Even ⌊x⌋ then ⌊x⌋ else ⌊x⌋ + 1

/-! ### Shared helper lemmas -/

lemma SYNODIC_MONTH_pos : (0 : K) < SYNODIC_MONTH := by
  norm_num [SYNODIC_MONTH]

lemma normalize_eq_fract (x : K) : normalize x = Int.fract x := rfl

lemma normalize_nonneg (x : K) : 0 ≤ normalize x := by
  rw [normalize_eq_fract]
  exact Int.fract_nonneg x

lemma normalize_lt_one (x : K) : normalize x < 1 := by
  rw [normalize_eq_fract]
  exact Int.fract_lt_one x

lemma lunarAgePercent_nonneg (julianDay : K) : 0 ≤ lunarAgePercent julianDay :=
  normalize_nonneg _

lemma lunarAgePercent_lt_one (julianDay : K) : lunarAgePercent julianDay < 1 :=
  normalize_lt_one _

lemma lunarAge_nonneg (julianDay : K) : 0 ≤ lunarAge julianDay :=
  mul_nonneg (lunarAgePercent_nonneg julianDay) SYNODIC_MONTH_pos.le

lemma lunarAge_lt_synodic (julianDay : K) : lunarAge julianDay < SYNODIC_MONTH := by
  have h := mul_lt_mul_of_pos_right (lunarAgePercent_lt_one julianDay)
    (SYNODIC_MONTH_pos (K := K))
  rwa [one_mul] at h

lemma emojiForLunarPhase_valid_eq (p : LunarPhase) (options : Option PartialMoonOptions) :
    emojiForLunarPhase (RawPhase.valid p) options
      = Except.ok ((if resolveHemisphere options = Hemisphere.SOUTHERN then
          NorthernHemisphereLunarEmoji else SouthernHemisphereLunarEmoji) p) := by
  cases p <;> rfl

/-! ### Claims -/

/-- Claim C3: for every date, `lunarAgePercent` lies in `[0, 1)` and
`lunarAge` lies in `[0, SYNODIC_MONTH)`; `normalize x = x - ⌊x⌋` lies in
`[0, 1)` for every input, negative ones included; and `lunarAge` equals
`lunarAgePercent * SYNODIC_MONTH` exactly. -/
theorem lunarAge_range (julianDay x : K) :
    0 ≤ lunarAgePercent julianDay ∧ lunarAgePercent julianDay < 1 ∧
    0 ≤ lunarAge julianDay ∧ lunarAge julianDay < SYNODIC_MONTH ∧
    lunarAge julianDay = lunarAgePercent julianDay * SYNODIC_MONTH ∧
    normalize x = x - ⌊x⌋ ∧ 0 ≤ normalize x ∧ normalize x < 1 :=
  ⟨lunarAgePercent_nonneg julianDay, lunarAgePercent_lt_one julianDay,
    lunarAge_nonneg julianDay, lunarAge_lt_synodic julianDay, rfl,
    rfl, normalize_nonneg x, normalize_lt_one x⟩

/-- Claim C4: `isWaxing` holds exactly when `lunarAge ≤ 14.765` (the
midpoint counts as waxing), `isWaning` exactly when `lunarAge > 14.765`,
and exactly one of the two is true for every date. -/
theorem isWaxing_xor_isWaning (julianDay : K) :
    (isWaxing julianDay = true ↔ lunarAge julianDay ≤ 14.765) ∧
    (isWaning julianDay = true ↔ 14.765 < lunarAge julianDay) ∧
    isWaxing julianDay ≠ isWaning julianDay := by
  refine ⟨by simp [isWaxing], by simp [isWaning], ?_⟩
  by_cases h : lunarAge julianDay ≤ 14.765
  · simp [isWaxing, isWaning, h, not_lt.mpr h]
  · simp [isWaxing, isWaning, h, not_le.mp h]

/-- Claim C9: the options parameter of `lunarPhase` has no effect on its
result: any two options records give the same phase. -/
theorem lunarPhase_ignores_options (julianDay : K)
    (o1 o2 : Option PartialMoonOptions) :
    lunarPhase julianDay o1 = lunarPhase julianDay o2 := rfl

/-- Claim C10: `lunarPhaseEmoji` is exactly the composition of the phase
classification and the phase-to-emoji lookup, with the options passed
through unchanged to the lookup and not to the classification (and since
the classification ignores options, passing them there changes nothing). -/
theorem lunarPhaseEmoji_eq_composition (julianDay : K)
    (options : Option PartialMoonOptions) :
    lunarPhaseEmoji julianDay options
        = emojiForLunarPhase (RawPhase.valid (lunarPhase julianDay none)) options ∧
    lunarPhaseEmoji julianDay options
        = emojiForLunarPhase (RawPhase.valid (lunarPhase julianDay options)) options :=
  ⟨rfl, rfl⟩

/-- Claim C1: `emojiForLunarPhase` consults the Northern-hemisphere table
when the resolved hemisphere is SOUTHERN and the Southern-hemisphere table
otherwise, so the glyph returned for each of the eight phases is the entry
of the table of the opposite hemisphere. -/
theorem emojiForLunarPhase_uses_opposite_table (phase : LunarPhase)
    (options : Option PartialMoonOptions) :
    emojiForLunarPhase (RawPhase.valid phase) options
      = Except.ok (emojiTable (oppositeHemisphere (resolveHemisphere options)) phase) := by
  rw [emojiForLunarPhase_valid_eq]
  cases h : resolveHemisphere options
  · simp [h, emojiTable, oppositeHemisphere]
  · simp [h, emojiTable, oppositeHemisphere]

/-- Claim C8: `emojiForLunarPhase` produces the invalid-phase error exactly
when its argument lies outside the eight-value `LunarPhase` enumeration,
and returns a glyph on every enumeration value, for every options record.
(The remaining public functions are embedded as total functions: the source
contains no other throw.) -/
theorem emojiForLunarPhase_error_iff (phase : RawPhase)
    (options : Option PartialMoonOptions) :
    ((∃ e, emojiForLunarPhase phase options = Except.error e) ↔
      ∀ p, phase ≠ RawPhase.valid p) ∧
    (∀ s, phase = RawPhase.invalid s →
      emojiForLunarPhase phase options
        = Except.error ("Invalid lunar phase of " ++ s ++ " specified")) ∧
    (∀ p, phase = RawPhase.valid p →
      ∃ g, emojiForLunarPhase phase options = Except.ok g) := by
  rcases phase with p | s
  · refine ⟨⟨?_, ?_⟩, ?_, ?_⟩
    · rintro ⟨e, he⟩
      rw [emojiForLunarPhase_valid_eq] at he
      cases he
    · intro h
      exact absurd rfl (h p)
    · intro s hs
      cases hs
    · intro q _
      exact ⟨_, emojiForLunarPhase_valid_eq p options⟩
  · refine ⟨⟨?_, ?_⟩, ?_, ?_⟩
    · intro _ p hp
      cases hp
    · intro _
      exact ⟨_, rfl⟩
    · intro t ht
      cases ht
      rfl
    · intro q hq
      cases hq

/-- Claim C2: `lunarPhase` classifies `lunarAge` by the eight ascending
half-open thresholds exactly as listed, with any age of at least
27.68492597415 mapped back to NEW; the thresholds are strictly ascending
and the last lies below SYNODIC_MONTH, so together with the range of
`lunarAge` the intervals are contiguous, non-overlapping and cover
`[0, SYNODIC_MONTH)`. -/
theorem lunarPhase_thresholds (julianDay : K) (options : Option PartialMoonOptions) :
    (0 ≤ lunarAge julianDay ∧ lunarAge julianDay < SYNODIC_MONTH) ∧
    (lunarAge julianDay < 1.84566173161 →
      lunarPhase julianDay options = LunarPhase.NEW) ∧
    (1.84566173161 ≤ lunarAge julianDay → lunarAge julianDay < 5.53698519483 →
      lunarPhase julianDay options = LunarPhase.WAXING_CRESCENT) ∧
    (5.53698519483 ≤ lunarAge julianDay → lunarAge julianDay < 9.22830865805 →
      lunarPhase julianDay options = LunarPhase.FIRST_QUARTER) ∧
    (9.22830865805 ≤ lunarAge julianDay → lunarAge julianDay < 12.91963212127 →
      lunarPhase julianDay options = LunarPhase.WAXING_GIBBOUS) ∧
    (12.91963212127 ≤ lunarAge julianDay → lunarAge julianDay < 16.61095558449 →
      lunarPhase julianDay options = LunarPhase.FULL) ∧
    (16.61095558449 ≤ lunarAge julianDay → lunarAge julianDay < 20.30227904771 →
      lunarPhase julianDay options = LunarPhase.WANING_GIBBOUS) ∧
    (20.30227904771 ≤ lunarAge julianDay → lunarAge julianDay < 23.99360251093 →
      lunarPhase julianDay options = LunarPhase.LAST_QUARTER) ∧
    (23.99360251093 ≤ lunarAge julianDay → lunarAge julianDay < 27.68492597415 →
      lunarPhase julianDay options = LunarPhase.WANING_CRESCENT) ∧
    (27.68492597415 ≤ lunarAge julianDay →
      lunarPhase julianDay options = LunarPhase.NEW) ∧
    ((0 : K) < 1.84566173161 ∧ (1.84566173161 : K) < 5.53698519483 ∧
      (5.53698519483 : K) < 9.22830865805 ∧ (9.22830865805 : K) < 12.91963212127 ∧
      (12.91963212127 : K) < 16.61095558449 ∧ (16.61095558449 : K) < 20.30227904771 ∧
      (20.30227904771 : K) < 23.99360251093 ∧ (23.99360251093 : K) < 27.68492597415 ∧
      (27.68492597415 : K) < SYNODIC_MONTH) := by
  have t0 : (0 : K) < 1.84566173161 := by norm_num
  have t1 : (1.84566173161 : K) < 5.53698519483 := by norm_num
  have t2 : (5.53698519483 : K) < 9.22830865805 := by norm_num
  have t3 : (9.22830865805 : K) < 12.91963212127 := by norm_num
  have t4 : (12.91963212127 : K) < 16.61095558449 := by norm_num
  have t5 : (16.61095558449 : K) < 20.30227904771 := by norm_num
  have t6 : (20.30227904771 : K) < 23.99360251093 := by norm_num
  have t7 : (23.99360251093 : K) < 27.68492597415 := by norm_num
  have t8 : (27.68492597415 : K) < SYNODIC_MONTH := by norm_num [SYNODIC_MONTH]
  have l2 : (1.84566173161 : K) < 9.22830865805 := t1.trans t2
  have l3 : (1.84566173161 : K) < 12.91963212127 := l2.trans t3
  have l4 : (1.84566173161 : K) < 16.61095558449 := l3.trans t4
  have l5 : (1.84566173161 : K) < 20.30227904771 := l4.trans t5
  have l6 : (1.84566173161 : K) < 23.99360251093 := l5.trans t6
  have l7 : (1.84566173161 : K) < 27.68492597415 := l6.trans t7
  have m3 : (5.53698519483 : K) < 12.91963212127 := t2.trans t3
  have m4 : (5.53698519483 : K) < 16.61095558449 := m3.trans t4
  have m5 : (5.53698519483 : K) < 20.30227904771 := m4.trans t5
  have m6 : (5.53698519483 : K) < 23.99360251093 := m5.trans t6
  have m7 : (5.53698519483 : K) < 27.68492597415 := m6.trans t7
  have n4 : (9.22830865805 : K) < 16.61095558449 := t3.trans t4
  have n5 : (9.22830865805 : K) < 20.30227904771 := n4.trans t5
  have n6 : (9.22830865805 : K) < 23.99360251093 := n5.trans t6
  have n7 : (9.22830865805 : K) < 27.68492597415 := n6.trans t7
  have p5 : (12.91963212127 : K) < 20.30227904771 := t4.trans t5
  have p6 : (12.91963212127 : K) < 23.99360251093 := p5.trans t6
  have p7 : (12.91963212127 : K) < 27.68492597415 := p6.trans t7
  have q6 : (16.61095558449 : K) < 23.99360251093 := t5.trans t6
  have q7 : (16.61095558449 : K) < 27.68492597415 := q6.trans t7
  have r7 : (20.30227904771 : K) < 27.68492597415 := t6.trans t7
  refine ⟨⟨lunarAge_nonneg _, lunarAge_lt_synodic _⟩,
      ?_, ?_, ?_, ?_, ?_, ?_, ?_, ?_, ?_, t0, t1, t2, t3, t4, t5, t6, t7, t8⟩
  · intro hhi
    unfold lunarPhase
    rw [if_pos hhi]
  · intro hlo hhi
    unfold lunarPhase
    rw [if_neg (not_lt.mpr hlo), if_pos hhi]
  · intro hlo hhi
    unfold lunarPhase
    rw [if_neg (not_lt.mpr (t1.le.trans hlo)), if_neg (not_lt.mpr hlo), if_pos hhi]
  · intro hlo hhi
    unfold lunarPhase
    rw [if_neg (not_lt.mpr (l2.le.trans hlo)), if_neg (not_lt.mpr (t2.le.trans hlo)),
      if_neg (not_lt.mpr hlo), if_pos hhi]
  · intro hlo hhi
    unfold lunarPhase
    rw [if_neg (not_lt.mpr (l3.le.trans hlo)), if_neg (not_lt.mpr (m3.le.trans hlo)),
      if_neg (not_lt.mpr (t3.le.trans hlo)), if_neg (not_lt.mpr hlo), if_pos hhi]
  · intro hlo hhi
    unfold lunarPhase
    rw [if_neg (not_lt.mpr (l4.le.trans hlo)), if_neg (not_lt.mpr (m4.le.trans hlo)),
      if_neg (not_lt.mpr (n4.le.trans hlo)), if_neg (not_lt.mpr (t4.le.trans hlo)),
      if_neg (not_lt.mpr hlo), if_pos hhi]
  · intro hlo hhi
    unfold lunarPhase
    rw [if_neg (not_lt.mpr (l5.le.trans hlo)), if_neg (not_lt.mpr (m5.le.trans hlo)),
      if_neg (not_lt.mpr (n5.le.trans hlo)), if_neg (not_lt.mpr (p5.le.trans hlo)),
      if_neg (not_lt.mpr (t5.le.trans hlo)), if_neg (not_lt.mpr hlo), if_pos hhi]
  · intro hlo hhi
    unfold lunarPhase
    rw [if_neg (not_lt.mpr (l6.le.trans hlo)), if_neg (not_lt.mpr (m6.le.trans hlo)),
      if_neg (not_lt.mpr (n6.le.trans hlo)), if_neg (not_lt.mpr (p6.le.trans hlo)),
      if_neg (not_lt.mpr (q6.le.trans hlo)), if_neg (not_lt.mpr (t6.le.trans hlo)),
      if_neg (not_lt.mpr hlo), if_pos hhi]
  · intro hlo
    unfold lunarPhase
    rw [if_neg (not_lt.mpr (l7.le.trans hlo)), if_neg (not_lt.mpr (m7.le.trans hlo)),
      if_neg (not_lt.mpr (n7.le.trans hlo)), if_neg (not_lt.mpr (p7.le.trans hlo)),
      if_neg (not_lt.mpr (q7.le.trans hlo)), if_neg (not_lt.mpr (r7.le.trans hlo)),
      if_neg (not_lt.mpr (t7.le.trans hlo)), if_neg (not_lt.mpr hlo)]

/-- Witness for claim C2 at a date three days after the reference new-moon
epoch, which lands in the WAXING_CRESCENT interval. -/
theorem lunarPhase_thresholds_witness :
    1.84566173161 ≤ lunarAge ((2451550.1 : ℚ) + 3) ∧
    lunarAge ((2451550.1 : ℚ) + 3) < 5.53698519483 ∧
    lunarPhase ((2451550.1 : ℚ) + 3) none = LunarPhase.WAXING_CRESCENT := by
  have hage : lunarAge ((2451550.1 : ℚ) + 3) = 3 := by
    norm_num [lunarAge, lunarAgePercent, normalize, SYNODIC_MONTH]
  refine ⟨by rw [hage]; norm_num, by rw [hage]; norm_num, ?_⟩
  exact (lunarPhase_thresholds ((2451550.1 : ℚ) + 3) none).2.2.1
    (by rw [hage]; norm_num) (by rw [hage]; norm_num)

/-- Claim C5 (amended): `lunationNumber` rounds with ECMAScript
`Math.round`, whose ties go toward positive infinity (`⌊x + 1/2⌋`); on
every date at or after the lunation base epoch this coincides with
round-half-away-from-zero; the tie-breaking readings of the claim fail before
the epoch. -/
theorem lunationNumber_eq_round (julianDay : K)
    (h : LUNATION_BASE_JULIAN_DAY ≤ julianDay) :
    lunationNumber julianDay
        = ⌊(julianDay - LUNATION_BASE_JULIAN_DAY) / SYNODIC_MONTH + 1 / 2⌋ + 1 ∧
    lunationNumber julianDay
        = roundHalfAwayFromZero
            ((julianDay - LUNATION_BASE_JULIAN_DAY) / SYNODIC_MONTH) + 1 := by
  refine ⟨rfl, ?_⟩
  have hx : 0 ≤ (julianDay - LUNATION_BASE_JULIAN_DAY) / SYNODIC_MONTH :=
    div_nonneg (sub_nonneg.mpr h) SYNODIC_MONTH_pos.le
  unfold lunationNumber mathRound roundHalfAwayFromZero
  rw [if_pos hx]

/-- Witness for the amended claim C5 at the lunation base epoch itself. -/
theorem lunationNumber_eq_round_witness :
    (LUNATION_BASE_JULIAN_DAY : ℚ) ≤ LUNATION_BASE_JULIAN_DAY ∧
    lunationNumber (LUNATION_BASE_JULIAN_DAY : ℚ)
      = roundHalfAwayFromZero (((LUNATION_BASE_JULIAN_DAY : ℚ)
          - LUNATION_BASE_JULIAN_DAY) / SYNODIC_MONTH) + 1 :=
  ⟨le_refl _, (lunationNumber_eq_round _ (le_refl _)).2⟩

/-- Counterexample to claim C5 as stated: one and a half synodic months
before the lunation base epoch the rounded ratio is the exact tie -3/2;
the code (ties toward positive infinity) yields lunation number 0, while
both round-half-away-from-zero and round-half-to-even yield -1. -/
theorem lunationNumber_tie_counterexample :
    lunationNumber ((LUNATION_BASE_JULIAN_DAY : ℚ) - 3 / 2 * SYNODIC_MONTH) = 0 ∧
    roundHalfAwayFromZero (((LUNATION_BASE_JULIAN_DAY : ℚ) - 3 / 2 * SYNODIC_MONTH
        - LUNATION_BASE_JULIAN_DAY) / SYNODIC_MONTH) + 1 = -1 ∧
    roundHalfToEven (((LUNATION_BASE_JULIAN_DAY : ℚ) - 3 / 2 * SYNODIC_MONTH
        - LUNATION_BASE_JULIAN_DAY) / SYNODIC_MONTH) + 1 = -1 := by
  have hS : (SYNODIC_MONTH : ℚ) ≠ 0 := ne_of_gt SYNODIC_MONTH_pos
  have hnum : (LUNATION_BASE_JULIAN_DAY : ℚ) - 3 / 2 * SYNODIC_MONTH
      - LUNATION_BASE_JULIAN_DAY = -(3 / 2) * SYNODIC_MONTH := by ring
  have hx : ((LUNATION_BASE_JULIAN_DAY : ℚ) - 3 / 2 * SYNODIC_MONTH
      - LUNATION_BASE_JULIAN_DAY) / SYNODIC_MONTH = -(3 / 2) := by
    rw [hnum, mul_div_assoc, div_self hS, mul_one]
  refine ⟨?_, ?_, ?_⟩
  · unfold lunationNumber mathRound
    rw [hx]
    norm_num
  · rw [hx]
    unfold roundHalfAwayFromZero
    rw [if_neg (by norm_num)]
    norm_num
  · rw [hx]
    unfold roundHalfToEven
    have hfr : Int.fract (-(3 / 2) : ℚ) = 1 / 2 := by
      norm_num [Int.fract]
    rw [hfr]
    rw [if_neg (by norm_num), if_neg (by norm_num), if_pos]
    · norm_num
    · have hfl : ⌊(-(3 / 2) : ℚ)⌋ = -2 := by norm_num
      rw [hfl]
      decide

/-- Claim C6: `lunationNumber` is monotonically non-decreasing in the
Julian day, and advancing the Julian day by exactly one SYNODIC_MONTH
increases it by exactly 1. -/
theorem lunationNumber_monotone (d1 d2 : K) (h : d1 ≤ d2) :
    lunationNumber d1 ≤ lunationNumber d2 ∧
    ∀ d : K, lunationNumber (d + SYNODIC_MONTH) = lunationNumber d + 1 := by
  constructor
  · have hdiv : (d1 - LUNATION_BASE_JULIAN_DAY) / SYNODIC_MONTH
        ≤ (d2 - LUNATION_BASE_JULIAN_DAY) / SYNODIC_MONTH :=
      div_le_div_of_nonneg_right (sub_le_sub_right h _) SYNODIC_MONTH_pos.le
    exact add_le_add_right (Int.floor_le_floor (add_le_add_right hdiv _)) 1
  · intro d
    have hS : (SYNODIC_MONTH : K) ≠ 0 := ne_of_gt SYNODIC_MONTH_pos
    have hstep : d + SYNODIC_MONTH - LUNATION_BASE_JULIAN_DAY
        = d - LUNATION_BASE_JULIAN_DAY + SYNODIC_MONTH := by ring
    unfold lunationNumber mathRound
    rw [hstep, add_div, div_self hS]
    have hre : (d - LUNATION_BASE_JULIAN_DAY) / SYNODIC_MONTH + 1 + 1 / 2
        = (d - LUNATION_BASE_JULIAN_DAY) / SYNODIC_MONTH + 1 / 2 + 1 := by ring
    rw [hre, Int.floor_add_one]

/-- Witness for claim C6 on the concrete pair of Julian days 0 and 1. -/
theorem lunationNumber_monotone_witness :
    (0 : ℚ) ≤ 1 ∧ lunationNumber (0 : ℚ) ≤ lunationNumber (1 : ℚ) ∧
    lunationNumber ((0 : ℚ) + SYNODIC_MONTH) = lunationNumber (0 : ℚ) + 1 :=
  ⟨by norm_num, (lunationNumber_monotone 0 1 (by norm_num)).1,
    (lunationNumber_monotone 0 1 (by norm_num)).2 0⟩

lemma distance_core_bounds (a b : ℝ) :
    56.0 ≤ 60.4 - 3.3 * Real.cos a - 0.6 * Real.cos (b - a) - 0.5 * Real.cos b ∧
    60.4 - 3.3 * Real.cos a - 0.6 * Real.cos (b - a) - 0.5 * Real.cos b ≤ 63.8 := by
  constructor
  · have hca := Real.cos_le_one a
    have hcb := Real.cos_le_one b
    have hcab := Real.cos_le_one (b - a)
    linarith
  · rw [Real.cos_sub]
    have h1 := Real.sin_sq_add_cos_sq a
    have h2 := Real.sin_sq_add_cos_sq b
    nlinarith [sq_nonneg (13 * Real.cos a + 2 * Real.cos b + 11),
      sq_nonneg (Real.cos b - 1),
      sq_nonneg (13 * Real.sin a + 2 * Real.sin b),
      sq_nonneg (Real.sin b)]

/-- Claim C7: `lunarDistance` is exactly the three-cosine formula of the
spec, and it stays within `[56.0, 63.8]` Earth radii for every date. -/
theorem lunarDistance_formula_and_range (julianDay : ℝ) :
    lunarDistance julianDay
        = 60.4
          - 3.3 * Real.cos (2 * Real.pi
              * normalize ((julianDay - 2451562.2) / ANOMALISTIC_MONTH))
          - 0.6 * Real.cos (2 * (lunarAgePercent julianDay * 2 * Real.pi)
              - 2 * Real.pi * normalize ((julianDay - 2451562.2) / ANOMALISTIC_MONTH))
          - 0.5 * Real.cos (2 * (lunarAgePercent julianDay * 2 * Real.pi)) ∧
    56.0 ≤ lunarDistance julianDay ∧ lunarDistance julianDay ≤ 63.8 := by
  have hform : lunarDistance julianDay
      = 60.4
        - 3.3 * Real.cos (2 * Real.pi
            * normalize ((julianDay - 2451562.2) / ANOMALISTIC_MONTH))
        - 0.6 * Real.cos (2 * (lunarAgePercent julianDay * 2 * Real.pi)
            - 2 * Real.pi * normalize ((julianDay - 2451562.2) / ANOMALISTIC_MONTH))
        - 0.5 * Real.cos (2 * (lunarAgePercent julianDay * 2 * Real.pi)) := rfl
  have hb := distance_core_bounds
    (2 * Real.pi * normalize ((julianDay - 2451562.2) / ANOMALISTIC_MONTH))
    (2 * (lunarAgePercent julianDay * 2 * Real.pi))
  rw [hform]
  exact ⟨rfl, hb.1, hb.2⟩

/-- Witness for claim C8 at a concrete misuse value and a concrete valid
phase. -/
theorem emojiForLunarPhase_error_iff_witness :
    emojiForLunarPhase (RawPhase.invalid "UNKNOWN") none
      = Except.error ("Invalid lunar phase of " ++ "UNKNOWN" ++ " specified") ∧
    ∃ g, emojiForLunarPhase (RawPhase.valid LunarPhase.FULL) none = Except.ok g :=
  ⟨(emojiForLunarPhase_error_iff (RawPhase.invalid "UNKNOWN") none).2.1 "UNKNOWN" rfl,
    (emojiForLunarPhase_error_iff (RawPhase.valid LunarPhase.FULL) none).2.2
      LunarPhase.FULL rfl⟩

end Lunarphase
